import Mathlib

/-! # Request-metrics middleware for fasthttp (`prometheus.go`)

A shallow embedding of `Prometheus.HandlerFunc`, `Prometheus.SetListenAddress`,
`Prometheus.SetListenAddressWithRouter`, `Prometheus.SetMetricsPath`,
`Prometheus.runServer` and `Prometheus.Custom`.

The router (`github.com/fasthttp/router`), the histogram vector
(`github.com/prometheus/client_golang`) and `fmt`/`strconv` are libraries the
package calls; they are represented by the values they hand back to the
package, and every statement below is quantified over them.
-/

namespace Fasthttpprom

/-! ## Library values -/

/-- A `fasthttp.RequestHandler` value as `fmt` sees it: `none` is the nil func,
`some a` a func whose code starts at address `a`. This is the identity of a
handler for `HandlerFunc`, which compares handlers by their printed text. -/
abbrev RequestHandler := Option Nat

/-- The text `fmt.Sprintf("%v", h)` gives for a func value: `<nil>` for the nil
func, otherwise the code address in lower-case hexadecimal after `0x`. -/
def sprintfV : RequestHandler → String
  | none => "<nil>"
  | some a => "0x" ++ String.mk (Nat.toDigits 16 a)

/-- The text `strconv.Itoa(n)` gives: the decimal digits of `n`, after a minus
sign when `n` is negative. -/
def Itoa (n : Int) : String := toString n

/-- A `time.Duration`, in nanoseconds; the value handed to `Observe` is this
duration divided by `time.Second`. -/
abbrev Duration := Int

/-- The user values of a `fasthttp.RequestCtx`, a list of key and value. -/
abbrev UserValues := List (String × String)

/-- The effect of `ctx.SetUserValue(key, value)`: the value of an existing key is
replaced, a new key is appended. -/
def SetUserValue (key value : String) : UserValues → UserValues
  | [] => [(key, value)]
  | (k, v) :: rest =>
    if k = key then (k, value) :: rest else (k, v) :: SetUserValue key value rest

/-- The part of a `fasthttp.RequestCtx` the middleware reads or that a dispatch
or a lookup writes. -/
structure RequestCtx where
  /-- The bytes of `ctx.Request.Header.Method()`, the same as `ctx.Method()`. -/
  method : String
  /-- The bytes of `ctx.Request.URI().Path()`. -/
  path : String
  /-- The value of `ctx.Response.StatusCode()`. -/
  statusCode : Int
  /-- The body of the response. -/
  body : String
  /-- The user values, where the router stores path parameters. -/
  userValues : UserValues
  deriving DecidableEq, Repr

/-- A `*router.Router` as the middleware uses it. The routes are registered
before requests are served, so what a lookup returns depends on the method and
the path alone; the context it is given only receives the path parameters. -/
structure Router where
  /-- The effect of `router.Handler(ctx)` on the context: the dispatch of the request. -/
  Handler : RequestCtx → RequestCtx
  /-- The two results of `router.Lookup(method, path, ctx)`: the handler found
  (nil when there is none) and the trailing-slash recommendation. -/
  Lookup : String → String → RequestHandler × Bool
  /-- The path parameters `router.Lookup(method, path, ctx)` stores in `ctx`. -/
  LookupParams : String → String → List (String × String)
  /-- The map `router.List()`: for a method, the patterns registered for it, in
  the order of registration; `none` when the map has no such key. -/
  List : String → Option (List String)

/-- The call `router.Lookup(method, path, ctx)`: its two results and the context
after the path parameters were stored in it. -/
def Router.lookupCtx (r : Router) (method path : String) (ctx : RequestCtx) :
    (RequestHandler × Bool) × RequestCtx :=
  (r.Lookup method path,
    { ctx with
      userValues := (r.LookupParams method path).foldl
        (fun uv kv => SetUserValue kv.1 kv.2 uv) ctx.userValues })

/-- The state of a `*prometheus.HistogramVec` with the two labels `code` and
`path`. -/
structure HistogramVec where
  /-- The error `GetMetricWithLabelValues(code, path)` returns for the two label
  values, `none` when it accepts them. -/
  labelError : String → String → Option String
  /-- The child histograms created so far, and for each the durations observed,
  oldest first. -/
  children : String × String → Option (List Duration)

/-- The call `reqDur.GetMetricWithLabelValues(code, path)`: an error, or the
vector in which the child of the two label values exists. -/
def HistogramVec.GetMetricWithLabelValues (h : HistogramVec) (code path : String) :
    Except String HistogramVec :=
  match h.labelError code path with
  | some err => .error err
  | none =>
    match h.children (code, path) with
    | some _ => .ok h
    | none => .ok { h with children := Function.update h.children (code, path) (some []) }

/-- The call `ob.Observe(elapsed)` on the child of the two label values. -/
def HistogramVec.Observe (h : HistogramVec) (code path : String) (elapsed : Duration) :
    HistogramVec :=
  let observed := (h.children (code, path)).getD [] ++ [elapsed]
  { h with children := Function.update h.children (code, path) (some observed) }

/-- The number of observations recorded under a label pair. -/
def HistogramVec.count (h : HistogramVec) (code path : String) : Nat :=
  ((h.children (code, path)).getD []).length

/-! ## `HandlerFunc` -/

/-- The fields of `Prometheus` the request handler reads, with the state of the
histogram and of the standard logger. -/
structure Prometheus where
  reqDur : HistogramVec
  router : Router
  MetricsPath : String
  /-- The lines written by `log.Printf`, oldest first. -/
  log : List String

/-- The loop `for _, v := range paths` of `HandlerFunc`: every pattern is looked
up for the method of the request, and the first one whose handler prints like
`handler` replaces `uri` and ends the loop. -/
def rangePaths (r : Router) (handler : RequestHandler) :
    List String → String → RequestCtx → String × RequestCtx
  | [], uri, ctx => (uri, ctx)
  | v :: rest, uri, ctx =>
    let res := r.lookupCtx ctx.method v ctx
    if sprintfV res.1.1 = sprintfV handler then (v, res.2)
    else rangePaths r handler rest uri res.2

/-- The lines 118 to 129 of `HandlerFunc`, run on the context left by the
dispatch: the value of `uri` after the loop, and the context. -/
def routePattern (r : Router) (uri : String) (ctx : RequestCtx) : String × RequestCtx :=
  let routeList := r.List
  let paths := routeList ctx.method
  let res := r.lookupCtx ctx.method uri ctx
  match paths with
  | some paths => rangePaths r res.1.1 paths uri res.2
  | none => (uri, res.2)

/-- The endpoint label `ep` of `HandlerFunc`, lines 130 to 135. -/
def endpoint (status method uri : String) : String :=
  if status = "404" then "404_" ++ method else method ++ "_" ++ uri

/-- The lines 115 to 135 of `HandlerFunc`, run on the context left by the
dispatch, `uri` being the path read before the dispatch: the two label values
`status` and `ep`, and the context. -/
def labelValues (r : Router) (uri : String) (ctx : RequestCtx) :
    (String × String) × RequestCtx :=
  let status := Itoa ctx.statusCode
  let res := routePattern r uri ctx
  let uri := res.1
  let ctx := res.2
  ((status, endpoint status ctx.method uri), ctx)

/-- The lines 136 to 141 of `HandlerFunc`: the child histogram of the two label
values is fetched and observes `elapsed`; when it cannot be fetched the error
is logged and nothing is observed. -/
def record (p : Prometheus) (status ep : String) (elapsed : Duration) : Prometheus :=
  match p.reqDur.GetMetricWithLabelValues status ep with
  | .error err =>
    { p with log := p.log ++ ["Fail to GetMetricWithLabelValues: " ++ err ++ "\n"] }
  | .ok reqDur => { p with reqDur := reqDur.Observe status ep elapsed }

/-- The request handler returned by `HandlerFunc`, run on a context; `elapsed` is
what `time.Since(start)` returns. The result is the middleware with the new
state of the histogram and of the log, and the context. -/
def HandlerFunc (p : Prometheus) (elapsed : Duration) (ctx : RequestCtx) :
    Prometheus × RequestCtx :=
  let uri := ctx.path
  if uri = p.MetricsPath then
    (p, p.router.Handler ctx)
  else
    let ctx := p.router.Handler ctx
    let res := labelValues p.router uri ctx
    (record p res.1.1 res.1.2 elapsed, res.2)

/-! ## Configuration of the metrics route -/

namespace Setup

/-- A `*router.Router` pointer. -/
abbrev RouterRef := Nat

/-- The routers of the process and the listeners it started. -/
structure Process where
  /-- For each router the routes registered on it, method and path, oldest first. -/
  routes : RouterRef → List (String × String)
  /-- The number of routers allocated so far; the next one gets this reference. -/
  allocated : Nat
  /-- For each `go fasthttp.ListenAndServe(address, router.Handler)` the address
  and the router whose `Handler` serves it, oldest first. -/
  listeners : List (String × Option RouterRef)

/-- The fields of `Prometheus` written by the configuration methods; `Handler`
tells whether `p.Handler` holds the closure of `HandlerFunc`. -/
structure Prometheus where
  router : Option RouterRef
  listenAddress : String
  MetricsPath : String
  Handler : Bool
  deriving DecidableEq, Repr

/-- The variable `defaultMetricPath`. -/
def defaultMetricPath : String := "/metrics"

/-- The fields of the value `NewPrometheus` returns. -/
def NewPrometheus : Prometheus :=
  { router := none, listenAddress := "", MetricsPath := defaultMetricPath, Handler := false }

/-- The call `router.New()`: a router with no route, distinct from every router
allocated before. -/
def New (w : Process) : RouterRef × Process :=
  (w.allocated,
    { w with routes := Function.update w.routes w.allocated [], allocated := w.allocated + 1 })

/-- The call `r.GET(path, prometheusHandler())`: the route is added to the router `r`. -/
def GET (r : RouterRef) (path : String) (w : Process) : Process :=
  { w with routes := Function.update w.routes r (w.routes r ++ [("GET", path)]) }

/-- The method `SetListenAddress`. -/
def SetListenAddress (p : Prometheus) (address : String) (w : Process) :
    Prometheus × Process :=
  let p := { p with listenAddress := address }
  if p.listenAddress ≠ "" then
    let res := New w
    ({ p with router := some res.1 }, res.2)
  else (p, w)

/-- The method `SetListenAddressWithRouter`. -/
def SetListenAddressWithRouter (p : Prometheus) (listenAddress : String) (r : RouterRef)
    (w : Process) : Prometheus × Process :=
  let p := { p with listenAddress := listenAddress }
  if listenAddress.length > 0 then ({ p with router := some r }, w) else (p, w)

/-- The method `runServer`. -/
def runServer (p : Prometheus) (w : Process) : Process :=
  if p.listenAddress ≠ "" then
    { w with listeners := w.listeners ++ [(p.listenAddress, p.router)] }
  else w

/-- The method `SetMetricsPath`. -/
def SetMetricsPath (p : Prometheus) (r : RouterRef) (w : Process) : Process :=
  if p.listenAddress ≠ "" then
    runServer p (GET r p.MetricsPath w)
  else
    GET r p.MetricsPath w

/-- The method `Custom`. -/
def Custom (p : Prometheus) (r : RouterRef) (w : Process) : Prometheus × Process :=
  let p := { p with router := some r }
  let w := SetMetricsPath p r w
  ({ p with Handler := true }, w)

end Setup

/-! ## Routers and requests of the examples

Each router below gives, for the requests of the examples, what a
`router.Router` with the named registrations gives.
-/

namespace Example

/-- A fresh context for a request: no response written yet, so the status code
reads 200, and no user value. -/
def request (method path : String) : RequestCtx :=
  { method := method, path := path, statusCode := 200, body := "", userValues := [] }

/-- Whether the characters are a non-empty path segment. -/
def isSegment (cs : List Char) : Bool :=
  cs ≠ [] && !cs.contains '/'

/-- A histogram vector with no child that accepts every label pair. -/
def emptyVec : HistogramVec :=
  { labelError := fun _ _ => none, children := fun _ => none }

/-- A histogram vector with no child that rejects every label pair. -/
def rejectingVec : HistogramVec :=
  { labelError := fun _ _ => some "label value is not valid UTF-8", children := fun _ => none }

/-- The middleware of `NewPrometheus` after `Use(r)`. -/
def prometheus (reqDur : HistogramVec) (r : Router) : Prometheus :=
  { reqDur := reqDur, router := r, MetricsPath := "/metrics", log := [] }

/-- Whether a path is `/items/` and one segment. -/
def isItem (path : String) : Bool :=
  path.data.take 7 = "/items/".data && isSegment (path.data.drop 7)

/-- The router after `r.GET("/items/:id", h)`, `h` having the code address
`0x4a1000`, and `Use(r)`, which registers `GET /metrics`. -/
def itemsRouter : Router where
  Handler ctx :=
    if ctx.method = "GET" ∧ isItem ctx.path then
      { ctx with statusCode := 200, body := "item",
                 userValues := SetUserValue "id" (String.mk (ctx.path.data.drop 7)) ctx.userValues }
    else if ctx.method = "GET" ∧ ctx.path = "/metrics" then
      { ctx with statusCode := 200, body := "# metrics" }
    else { ctx with statusCode := 404, body := "Not Found" }
  Lookup method path :=
    if method = "GET" ∧ isItem path then (some 0x4a1000, false)
    else if method = "GET" ∧ path = "/metrics" then (some 0x4b2000, false)
    else (none, false)
  LookupParams method path :=
    if method = "GET" ∧ isItem path then [("id", String.mk (path.data.drop 7))] else []
  List method := if method = "GET" then some ["/items/:id", "/metrics"] else none

/-- Whether a path is `/a/` or `/b/` and one segment. -/
def isTwin (path : String) : Bool :=
  (path.data.take 3 = "/a/".data || path.data.take 3 = "/b/".data) &&
    isSegment (path.data.drop 3)

/-- The router after `r.GET("/a/:id", h)` and `r.GET("/b/:id", h)` with one
handler `h`, of code address `0x4a1000`. -/
def twinRouter : Router where
  Handler ctx :=
    if ctx.method = "GET" ∧ isTwin ctx.path then
      { ctx with statusCode := 200, body := "twin",
                 userValues := SetUserValue "id" (String.mk (ctx.path.data.drop 3)) ctx.userValues }
    else { ctx with statusCode := 404, body := "Not Found" }
  Lookup method path :=
    if method = "GET" ∧ isTwin path then (some 0x4a1000, false) else (none, false)
  LookupParams method path :=
    if method = "GET" ∧ isTwin path then [("id", String.mk (path.data.drop 3))] else []
  List method := if method = "GET" then some ["/a/:id", "/b/:id"] else none

/-- The router after `r.GET("/a", h)` and `r.GET("/b", h)` with one handler `h`,
of code address `0x4a1000`. -/
def aliasRouter : Router where
  Handler ctx :=
    if ctx.method = "GET" ∧ (ctx.path = "/a" ∨ ctx.path = "/b") then
      { ctx with statusCode := 200, body := "alias" }
    else { ctx with statusCode := 404, body := "Not Found" }
  Lookup method path :=
    if method = "GET" ∧ (path = "/a" ∨ path = "/b") then (some 0x4a1000, false)
    else (none, false)
  LookupParams _ _ := []
  List method := if method = "GET" then some ["/a", "/b"] else none

/-- The router after `r.GET("/foo/", h)`, `h` having the code address `0x4a1000`:
`GET /foo` is answered by the redirect to `/foo/`, with status 301, and its
lookup finds no handler and recommends the trailing slash. -/
def slashRouter : Router where
  Handler ctx :=
    if ctx.method = "GET" ∧ ctx.path = "/foo/" then
      { ctx with statusCode := 200, body := "foo" }
    else if ctx.method = "GET" ∧ ctx.path = "/foo" then
      { ctx with statusCode := 301, body := "" }
    else { ctx with statusCode := 404, body := "Not Found" }
  Lookup method path :=
    if method = "GET" ∧ path = "/foo/" then (some 0x4a1000, false)
    else if method = "GET" ∧ path = "/foo" then (none, true)
    else (none, false)
  LookupParams _ _ := []
  List method := if method = "GET" then some ["/foo/"] else none

/-- Whether a path is `/items/` and a non-empty run of decimal digits. -/
def isNumberedItem (path : List Char) : Bool :=
  path.take 7 = "/items/".data && path.drop 7 ≠ [] && (path.drop 7).all Char.isDigit

/-- The router after `r.GET("/ping", h1)` and `r.GET("/items/\x7bid:[0-9]+\x7d", h2)`:
the second pattern, looked up as a path, finds no handler, and a path that
differs from a route in the case of its letters is answered by the redirect to
the route, with status 301, its lookup finding no handler. -/
def regexRouter : Router where
  Handler ctx :=
    if ctx.method = "GET" ∧ (ctx.path = "/ping" ∨ isNumberedItem ctx.path.data) then
      { ctx with statusCode := 200, body := "ok" }
    else if ctx.method = "GET" ∧ isNumberedItem (ctx.path.data.map Char.toLower) then
      { ctx with statusCode := 301, body := "" }
    else { ctx with statusCode := 404, body := "Not Found" }
  Lookup method path :=
    if method = "GET" ∧ path = "/ping" then (some 0x4a1000, false)
    else if method = "GET" ∧ isNumberedItem path.data then (some 0x4b2000, false)
    else (none, false)
  LookupParams method path :=
    if method = "GET" ∧ isNumberedItem path.data then [("id", String.mk (path.data.drop 7))]
    else []
  List method :=
    if method = "GET" then some ["/ping", "/items/\x7bid:[0-9]+\x7d"] else none

end Example

namespace Setup.Example

/-- A process in which the application has allocated its router, of reference 0,
and a second router, of reference 1. -/
def appProcess : Process :=
  { routes := fun _ => [], allocated := 2, listeners := [] }

/-- The calls `p := NewPrometheus(...)`, `p.SetListenAddress(":9090")` and
`p.Custom(r)`, `r` being the router of the application. -/
def listenThenCustom : Prometheus × Process :=
  let s := SetListenAddress NewPrometheus ":9090" appProcess
  Custom s.1 0 s.2

/-- The calls `p := NewPrometheus(...)`, `p.SetListenAddressWithRouter(":9090", r2)`
and `p.Custom(r)`, `r` being the router of the application and `r2` the second
router. -/
def listenWithRouterThenCustom : Prometheus × Process :=
  let s := SetListenAddressWithRouter NewPrometheus ":9090" 1 appProcess
  Custom s.1 0 s.2

end Setup.Example

/-! ## Printing of numbers and handlers -/

/-- The value of a digit character printed by `Nat.digitChar`. -/
def digitValue (c : Char) : Nat :=
  if c.toNat < 58 then c.toNat - 48 else c.toNat - 87

/-- The number a list of digit characters denotes in a base, most significant
digit first, after the digits already read as `acc`. -/
def digitsValue (base : Nat) (acc : Nat) (ds : List Char) : Nat :=
  ds.foldl (fun a c => a * base + digitValue c) acc

theorem digitValue_digitChar (k : Nat) (hk : k < 16) : digitValue (Nat.digitChar k) = k := by
  interval_cases k <;> rfl

theorem digitsValue_toDigitsCore (base : Nat) (hb : 2 ≤ base) (hb16 : base ≤ 16) :
    ∀ (fuel n : Nat) (ds : List Char), n < fuel →
      digitsValue base 0 (Nat.toDigitsCore base fuel n ds) = digitsValue base n ds := by
  intro fuel
  induction fuel with
  | zero => intro n ds h; omega
  | succ fuel ih =>
    intro n ds h
    have hmod : n % base < 16 := lt_of_lt_of_le (Nat.mod_lt _ (by omega)) hb16
    simp only [Nat.toDigitsCore]
    split
    · rename_i h0
      have hn : n < base := (Nat.div_eq_zero_iff (by omega : 0 < base)).mp h0
      have hd := digitValue_digitChar _ hmod
      rw [Nat.mod_eq_of_lt hn] at hd
      simp [digitsValue, Nat.mod_eq_of_lt hn, hd]
    · rename_i h0
      have hlt : n / base < fuel := by
        have : n / base < n := Nat.div_lt_self (by
          rcases Nat.eq_zero_or_pos n with h1 | h1
          · subst h1; simp at h0
          · exact h1) (by omega)
        omega
      rw [ih (n / base) _ hlt]
      simp only [digitsValue, List.foldl_cons, digitValue_digitChar _ hmod]
      congr 1
      exact Nat.div_add_mod' n base

theorem toDigits_injective (base : Nat) (hb : 2 ≤ base) (hb16 : base ≤ 16) (a b : Nat)
    (h : Nat.toDigits base a = Nat.toDigits base b) : a = b := by
  have ha := digitsValue_toDigitsCore base hb hb16 (a + 1) a [] (by omega)
  have hb' := digitsValue_toDigitsCore base hb hb16 (b + 1) b [] (by omega)
  simp only [Nat.toDigits] at h
  rw [h, hb'] at ha
  simpa [digitsValue] using ha.symm

/-- Two handlers print alike exactly when both are nil or both have the same
code address. -/
theorem sprintfV_eq_iff (a b : RequestHandler) : sprintfV a = sprintfV b ↔ a = b := by
  constructor
  · intro h
    have hd := congrArg String.data h
    cases a with
    | none =>
      cases b with
      | none => rfl
      | some y => simp [sprintfV, String.data_append] at hd
    | some x =>
      cases b with
      | none => simp [sprintfV, String.data_append] at hd
      | some y =>
        simp only [sprintfV, String.data_append, List.append_cancel_left_eq] at hd
        exact congrArg some (toDigits_injective 16 (by decide) (by decide) x y hd)
  · intro h; rw [h]

/-- The status text is `404` exactly for the status code 404. -/
theorem Itoa_eq_404_iff (n : Int) : Itoa n = "404" ↔ n = 404 := by
  constructor
  · intro h
    have hd := congrArg String.data h
    cases n with
    | ofNat m =>
      have h1 : Nat.toDigits 10 m = Nat.toDigits 10 404 := by
        simpa [Itoa, toString, Nat.repr, List.asString] using hd
      have := toDigits_injective 10 (by decide) (by decide) m 404 h1
      subst this; rfl
    | negSucc m => simp [Itoa, toString, String.data_append] at hd
  · intro h; subst h; rfl

/-! ## The lookups leave the request and the response alone -/

theorem lookupCtx_fst (r : Router) (m path : String) (ctx : RequestCtx) :
    (r.lookupCtx m path ctx).1 = r.Lookup m path := rfl

theorem lookupCtx_method (r : Router) (m path : String) (ctx : RequestCtx) :
    (r.lookupCtx m path ctx).2.method = ctx.method := rfl

theorem lookupCtx_statusCode (r : Router) (m path : String) (ctx : RequestCtx) :
    (r.lookupCtx m path ctx).2.statusCode = ctx.statusCode := rfl

theorem lookupCtx_body (r : Router) (m path : String) (ctx : RequestCtx) :
    (r.lookupCtx m path ctx).2.body = ctx.body := rfl

theorem rangePaths_fields (r : Router) (h : RequestHandler) :
    ∀ (paths : List String) (uri : String) (ctx : RequestCtx),
      (rangePaths r h paths uri ctx).2.method = ctx.method ∧
      (rangePaths r h paths uri ctx).2.statusCode = ctx.statusCode ∧
      (rangePaths r h paths uri ctx).2.body = ctx.body := by
  intro paths
  induction paths with
  | nil => intro uri ctx; exact ⟨rfl, rfl, rfl⟩
  | cons v rest ih =>
    intro uri ctx
    simp only [rangePaths]
    split
    · exact ⟨rfl, rfl, rfl⟩
    · exact ih uri _

theorem routePattern_fields (r : Router) (uri : String) (ctx : RequestCtx) :
    (routePattern r uri ctx).2.method = ctx.method ∧
    (routePattern r uri ctx).2.statusCode = ctx.statusCode ∧
    (routePattern r uri ctx).2.body = ctx.body := by
  simp only [routePattern]
  split
  · exact rangePaths_fields r _ _ uri _
  · exact ⟨rfl, rfl, rfl⟩

theorem labelValues_fields (r : Router) (uri : String) (ctx : RequestCtx) :
    (labelValues r uri ctx).2.method = ctx.method ∧
    (labelValues r uri ctx).2.statusCode = ctx.statusCode ∧
    (labelValues r uri ctx).2.body = ctx.body :=
  routePattern_fields r uri ctx

/-! ## The loop picks the first pattern with the handler of the request -/

theorem rangePaths_fst (r : Router) (h : RequestHandler) :
    ∀ (paths : List String) (uri : String) (ctx : RequestCtx),
      (rangePaths r h paths uri ctx).1 =
        (paths.find? (fun v => decide ((r.Lookup ctx.method v).1 = h))).getD uri := by
  intro paths
  induction paths with
  | nil => intro uri ctx; rfl
  | cons v rest ih =>
    intro uri ctx
    simp only [rangePaths, lookupCtx_fst, List.find?_cons]
    by_cases hv : (r.Lookup ctx.method v).1 = h
    · simp [hv]
    · have hs : ¬ sprintfV (r.Lookup ctx.method v).1 = sprintfV h :=
        fun hc => hv ((sprintfV_eq_iff _ _).mp hc)
      rw [if_neg hs, ih uri _]
      simp [hv, lookupCtx_method]

theorem routePattern_some (r : Router) (uri : String) (ctx : RequestCtx) (paths : List String)
    (hlist : r.List ctx.method = some paths) :
    (routePattern r uri ctx).1 =
      (paths.find? (fun v =>
        decide ((r.Lookup ctx.method v).1 = (r.Lookup ctx.method uri).1))).getD uri := by
  simp only [routePattern, hlist]
  rw [rangePaths_fst]
  rfl

theorem routePattern_none (r : Router) (uri : String) (ctx : RequestCtx)
    (hlist : r.List ctx.method = none) : (routePattern r uri ctx).1 = uri := by
  simp only [routePattern, hlist]

theorem routePattern_split (r : Router) (uri : String) (ctx : RequestCtx)
    (pre post : List String) (v : String)
    (hlist : r.List ctx.method = some (pre ++ v :: post))
    (hpre : ∀ q ∈ pre, (r.Lookup ctx.method q).1 ≠ (r.Lookup ctx.method uri).1)
    (hv : (r.Lookup ctx.method v).1 = (r.Lookup ctx.method uri).1) :
    (routePattern r uri ctx).1 = v := by
  rw [routePattern_some r uri ctx _ hlist]
  have hfind : (pre ++ v :: post).find? (fun v =>
      decide ((r.Lookup ctx.method v).1 = (r.Lookup ctx.method uri).1)) = some v := by
    rw [List.find?_eq_some]
    refine ⟨by simpa using hv, pre, post, rfl, ?_⟩
    intro a ha
    simpa using hpre a ha
  rw [hfind]
  rfl

theorem routePattern_exists (r : Router) (uri : String) (ctx : RequestCtx)
    (paths : List String) (hlist : r.List ctx.method = some paths)
    (hex : ∃ v ∈ paths, (r.Lookup ctx.method v).1 = (r.Lookup ctx.method uri).1) :
    ∃ pre v post, paths = pre ++ v :: post ∧
      (∀ q ∈ pre, (r.Lookup ctx.method q).1 ≠ (r.Lookup ctx.method uri).1) ∧
      (r.Lookup ctx.method v).1 = (r.Lookup ctx.method uri).1 ∧
      (routePattern r uri ctx).1 = v := by
  rw [routePattern_some r uri ctx _ hlist]
  obtain ⟨w, hw, hwe⟩ := hex
  have hsome : (paths.find? (fun v =>
      decide ((r.Lookup ctx.method v).1 = (r.Lookup ctx.method uri).1))).isSome = true := by
    rw [List.find?_isSome]
    exact ⟨w, hw, by simpa using hwe⟩
  obtain ⟨v, hv⟩ := Option.isSome_iff_exists.mp hsome
  obtain ⟨hpv, pre, post, hsplit, hpre⟩ := List.find?_eq_some.mp hv
  refine ⟨pre, v, post, hsplit, ?_, by simpa using hpv, by rw [hv]; rfl⟩
  intro q hq
  simpa using hpre q hq

theorem routePattern_no_match (r : Router) (uri : String) (ctx : RequestCtx)
    (hno : ∀ paths, r.List ctx.method = some paths →
      ∀ v ∈ paths, (r.Lookup ctx.method v).1 ≠ (r.Lookup ctx.method uri).1) :
    (routePattern r uri ctx).1 = uri := by
  cases hlist : r.List ctx.method with
  | none => exact routePattern_none r uri ctx hlist
  | some paths =>
    rw [routePattern_some r uri ctx _ hlist]
    have hnone : paths.find? (fun v =>
        decide ((r.Lookup ctx.method v).1 = (r.Lookup ctx.method uri).1)) = none := by
      rw [List.find?_eq_none]
      intro x hx
      simpa using hno paths hlist x hx
    rw [hnone]
    rfl

/-! ## The recording step -/

theorem record_error (p : Prometheus) (status ep : String) (elapsed : Duration) (err : String)
    (h : p.reqDur.labelError status ep = some err) :
    (record p status ep elapsed).reqDur = p.reqDur := by
  simp only [record, HistogramVec.GetMetricWithLabelValues, h]

theorem record_ok (p : Prometheus) (status ep : String) (elapsed : Duration)
    (h : p.reqDur.labelError status ep = none) :
    (record p status ep elapsed).reqDur.children =
      Function.update p.reqDur.children (status, ep)
        (some ((p.reqDur.children (status, ep)).getD [] ++ [elapsed])) := by
  simp only [record, HistogramVec.GetMetricWithLabelValues, h]
  cases hc : p.reqDur.children (status, ep) with
  | none => simp [HistogramVec.Observe]
  | some obs => simp [HistogramVec.Observe, hc]

theorem HandlerFunc_measured (p : Prometheus) (elapsed : Duration) (ctx : RequestCtx)
    (hpath : ctx.path ≠ p.MetricsPath) :
    HandlerFunc p elapsed ctx =
      (record p (labelValues p.router ctx.path (p.router.Handler ctx)).1.1
          (labelValues p.router ctx.path (p.router.Handler ctx)).1.2 elapsed,
        (labelValues p.router ctx.path (p.router.Handler ctx)).2) := by
  simp only [HandlerFunc, if_neg hpath]

theorem labelValues_fst (r : Router) (uri : String) (ctx : RequestCtx) :
    (labelValues r uri ctx).1 =
      (Itoa ctx.statusCode,
        endpoint (Itoa ctx.statusCode) ctx.method (routePattern r uri ctx).1) := by
  simp only [labelValues, (routePattern_fields r uri ctx).1]

theorem endpoint_not_found (method uri : String) :
    endpoint (Itoa 404) method uri = "404_" ++ method := by
  have h : Itoa 404 = "404" := rfl
  simp only [endpoint, h, if_true]

theorem endpoint_found (code : Int) (method uri : String) (h : code ≠ 404) :
    endpoint (Itoa code) method uri = method ++ "_" ++ uri := by
  have hs : ¬ Itoa code = "404" := fun hc => h ((Itoa_eq_404_iff code).mp hc)
  simp only [endpoint, if_neg hs]

/-! ## The claims -/

open Example

/-- C1 at two inputs where the loop misses the route pattern of the request.
With `GET /a` and `GET /b` registered in this order with one handler, the path
`/b`, which the router matches to the handler of the pattern `/b`, resolves to
`/a`, and the request is recorded under `GET_/a`. With `GET /ping` and the
numbered items route registered, the path `/items/5`, answered with status 200
by the handler of the items route, resolves to none of the patterns, since
the pattern looked up as a path finds no handler, and the request is recorded
under the literal `GET_/items/5`. -/
theorem route_pattern_missed :
    aliasRouter.List (aliasRouter.Handler (request "GET" "/b")).method = some ["/a", "/b"] ∧
      (aliasRouter.Lookup "GET" "/b").1 = some 0x4a1000 ∧
      (aliasRouter.Lookup "GET" "/a").1 = some 0x4a1000 ∧
      (routePattern aliasRouter "/b" (aliasRouter.Handler (request "GET" "/b"))).1 = "/a" ∧
      (routePattern aliasRouter "/b" (aliasRouter.Handler (request "GET" "/b"))).1 ≠ "/b" ∧
      (HandlerFunc (prometheus emptyVec aliasRouter) 1500000
          (request "GET" "/b")).1.reqDur.children ("200", "GET_/a") = some [1500000] ∧
      (HandlerFunc (prometheus emptyVec aliasRouter) 1500000
          (request "GET" "/b")).1.reqDur.children ("200", "GET_/b") = none ∧
      regexRouter.List (regexRouter.Handler (request "GET" "/items/5")).method =
        some ["/ping", "/items/\x7bid:[0-9]+\x7d"] ∧
      (regexRouter.Handler (request "GET" "/items/5")).statusCode = 200 ∧
      (regexRouter.Lookup "GET" "/items/5").1 = some 0x4b2000 ∧
      (regexRouter.Lookup "GET" "/items/\x7bid:[0-9]+\x7d").1 = none ∧
      (routePattern regexRouter "/items/5"
        (regexRouter.Handler (request "GET" "/items/5"))).1 = "/items/5" ∧
      (HandlerFunc (prometheus emptyVec regexRouter) 1500000
          (request "GET" "/items/5")).1.reqDur.children ("200", "GET_/items/5") =
        some [1500000] ∧
      (HandlerFunc (prometheus emptyVec regexRouter) 1500000
          (request "GET" "/items/5")).1.reqDur.children
            ("200", "GET_/items/\x7bid:[0-9]+\x7d") = none := by
  decide

/-- C2: a request whose path is not the metrics path and whose response has the
status 404 gets the label values `404` and `404_` followed by the method, for
every path, catalog and lookup: the recording step runs on them, and when the
histogram accepts them the observation is appended to their child. -/
theorem not_found_label (p : Prometheus) (elapsed : Duration) (ctx : RequestCtx)
    (hpath : ctx.path ≠ p.MetricsPath) (h404 : (p.router.Handler ctx).statusCode = 404) :
    (labelValues p.router ctx.path (p.router.Handler ctx)).1 =
        ("404", "404_" ++ (p.router.Handler ctx).method) ∧
      (HandlerFunc p elapsed ctx).1 =
        record p "404" ("404_" ++ (p.router.Handler ctx).method) elapsed ∧
      (p.reqDur.labelError "404" ("404_" ++ (p.router.Handler ctx).method) = none →
        (HandlerFunc p elapsed ctx).1.reqDur.children
            ("404", "404_" ++ (p.router.Handler ctx).method) =
          some ((p.reqDur.children
            ("404", "404_" ++ (p.router.Handler ctx).method)).getD [] ++ [elapsed])) := by
  have hlv : (labelValues p.router ctx.path (p.router.Handler ctx)).1 =
      ("404", "404_" ++ (p.router.Handler ctx).method) := by
    rw [labelValues_fst, h404, endpoint_not_found]
    rfl
  have hrec : (HandlerFunc p elapsed ctx).1 =
      record p "404" ("404_" ++ (p.router.Handler ctx).method) elapsed := by
    rw [HandlerFunc_measured p elapsed ctx hpath, hlv]
  refine ⟨hlv, hrec, ?_⟩
  intro hacc
  rw [hrec, record_ok p _ _ elapsed hacc, Function.update_same]

/-- C2 on `GET /unknown/path` with only `GET /items/:id` and `GET /metrics`
registered: one observation under `404` and `404_GET`. -/
theorem not_found_label_witness :
    (request "GET" "/unknown/path").path ≠ (prometheus emptyVec itemsRouter).MetricsPath ∧
      (itemsRouter.Handler (request "GET" "/unknown/path")).statusCode = 404 ∧
      (HandlerFunc (prometheus emptyVec itemsRouter) 1500000
          (request "GET" "/unknown/path")).1.reqDur.children ("404", "404_GET") =
        some [1500000] :=
  ⟨by decide, by decide,
    (not_found_label (prometheus emptyVec itemsRouter) 1500000 (request "GET" "/unknown/path")
      (by decide) (by decide)).2.2 rfl⟩

/-- C3: a request whose path is the metrics path is handed to the handler of the
router once, and the histogram and the log are left as they were. -/
theorem metrics_path_forwarded (p : Prometheus) (elapsed : Duration) (ctx : RequestCtx)
    (hpath : ctx.path = p.MetricsPath) :
    (HandlerFunc p elapsed ctx).2 = p.router.Handler ctx ∧
      (HandlerFunc p elapsed ctx).1.reqDur = p.reqDur ∧
      (HandlerFunc p elapsed ctx).1.log = p.log := by
  simp only [HandlerFunc, if_pos hpath, and_self]

/-- C3 on `GET /metrics`. -/
theorem metrics_path_forwarded_witness :
    (request "GET" "/metrics").path = (prometheus emptyVec itemsRouter).MetricsPath ∧
      ((HandlerFunc (prometheus emptyVec itemsRouter) 1500000 (request "GET" "/metrics")).2 =
          itemsRouter.Handler (request "GET" "/metrics") ∧
        (HandlerFunc (prometheus emptyVec itemsRouter) 1500000
          (request "GET" "/metrics")).1.reqDur = emptyVec ∧
        (HandlerFunc (prometheus emptyVec itemsRouter) 1500000
          (request "GET" "/metrics")).1.log = []) :=
  ⟨by decide,
    metrics_path_forwarded (prometheus emptyVec itemsRouter) 1500000 (request "GET" "/metrics")
      (by decide)⟩

/-- C4, as stated, fails: with only `GET /foo/` registered, `GET /foo` is answered
by a redirect, and the observation is recorded under the endpoint label
`GET_/foo`, made of a path that is no registered pattern. -/
theorem literal_path_in_label :
    (request "GET" "/foo").path ≠ (prometheus emptyVec slashRouter).MetricsPath ∧
      slashRouter.List (slashRouter.Handler (request "GET" "/foo")).method = some ["/foo/"] ∧
      "/foo" ∉ ["/foo/"] ∧
      (labelValues slashRouter "/foo" (slashRouter.Handler (request "GET" "/foo"))).1 =
        ("301", "GET_/foo") ∧
      (HandlerFunc (prometheus emptyVec slashRouter) 1500000
          (request "GET" "/foo")).1.reqDur.children ("301", "GET_/foo") = some [1500000] ∧
      "GET_/foo" ≠ "404_" ++ "GET" ∧
      ∀ v ∈ ["/foo/"], "GET_/foo" ≠ "GET" ++ "_" ++ v := by
  decide

/-- C4, amended: for a request whose path is not the metrics path the recording
step runs on an endpoint label that is `404_` and the method, or the method,
`_` and a pattern registered for the method whose lookup gives the handler of
the request path, or, when no pattern registered for the method does, the
method, `_` and the request path itself. -/
theorem label_space (p : Prometheus) (elapsed : Duration) (ctx : RequestCtx)
    (hpath : ctx.path ≠ p.MetricsPath) :
    (HandlerFunc p elapsed ctx).1 =
        record p (labelValues p.router ctx.path (p.router.Handler ctx)).1.1
          (labelValues p.router ctx.path (p.router.Handler ctx)).1.2 elapsed ∧
      ((labelValues p.router ctx.path (p.router.Handler ctx)).1.2 =
          "404_" ++ (p.router.Handler ctx).method ∨
        (∃ paths v, p.router.List (p.router.Handler ctx).method = some paths ∧ v ∈ paths ∧
          (p.router.Lookup (p.router.Handler ctx).method v).1 =
            (p.router.Lookup (p.router.Handler ctx).method ctx.path).1 ∧
          (labelValues p.router ctx.path (p.router.Handler ctx)).1.2 =
            (p.router.Handler ctx).method ++ "_" ++ v) ∨
        ((∀ paths, p.router.List (p.router.Handler ctx).method = some paths →
            ∀ v ∈ paths, (p.router.Lookup (p.router.Handler ctx).method v).1 ≠
              (p.router.Lookup (p.router.Handler ctx).method ctx.path).1) ∧
          (labelValues p.router ctx.path (p.router.Handler ctx)).1.2 =
            (p.router.Handler ctx).method ++ "_" ++ ctx.path)) := by
  refine ⟨by rw [HandlerFunc_measured p elapsed ctx hpath], ?_⟩
  rw [labelValues_fst]
  by_cases h404 : (p.router.Handler ctx).statusCode = 404
  · left
    rw [h404, endpoint_not_found]
  · right
    simp only [endpoint_found _ _ _ h404]
    by_cases hex : ∃ paths, p.router.List (p.router.Handler ctx).method = some paths ∧
        ∃ v ∈ paths, (p.router.Lookup (p.router.Handler ctx).method v).1 =
          (p.router.Lookup (p.router.Handler ctx).method ctx.path).1
    · left
      obtain ⟨paths, hlist, hv⟩ := hex
      obtain ⟨pre, v, post, hsplit, _, hveq, hres⟩ :=
        routePattern_exists p.router ctx.path (p.router.Handler ctx) paths hlist hv
      exact ⟨paths, v, hlist, by rw [hsplit]; simp, hveq, by rw [hres]⟩
    · right
      have hno : ∀ paths, p.router.List (p.router.Handler ctx).method = some paths →
          ∀ v ∈ paths, (p.router.Lookup (p.router.Handler ctx).method v).1 ≠
            (p.router.Lookup (p.router.Handler ctx).method ctx.path).1 :=
        fun paths hlist v hv heq => hex ⟨paths, hlist, v, hv, heq⟩
      exact ⟨hno, by rw [routePattern_no_match p.router ctx.path _ hno]⟩

/-- C4, amended, on `GET /items/123` with `GET /items/:id` registered. -/
theorem label_space_witness :
    (request "GET" "/items/123").path ≠ (prometheus emptyVec itemsRouter).MetricsPath ∧
      (labelValues itemsRouter "/items/123"
        (itemsRouter.Handler (request "GET" "/items/123"))).1.2 = "GET_/items/:id" ∧
      (HandlerFunc (prometheus emptyVec itemsRouter) 1500000 (request "GET" "/items/123")).1 =
        record (prometheus emptyVec itemsRouter) "200" "GET_/items/:id" 1500000 :=
  ⟨by decide, by decide,
    (label_space (prometheus emptyVec itemsRouter) 1500000 (request "GET" "/items/123")
      (by decide)).1⟩

/-- C5: for a request whose path is not the metrics path, whose response status is
not 404 and whose label values the histogram accepts, the observation is
appended to the child of the decimal status and of the method, `_` and the
value of `uri` after the loop; that child holds one observation more, and no
other child changes. -/
theorem one_observation_recorded (p : Prometheus) (elapsed : Duration) (ctx : RequestCtx)
    (hpath : ctx.path ≠ p.MetricsPath) (hstatus : (p.router.Handler ctx).statusCode ≠ 404)
    (haccept : p.reqDur.labelError (Itoa (p.router.Handler ctx).statusCode)
      ((p.router.Handler ctx).method ++ "_" ++
        (routePattern p.router ctx.path (p.router.Handler ctx)).1) = none) :
    (HandlerFunc p elapsed ctx).1.reqDur.children
        (Itoa (p.router.Handler ctx).statusCode,
          (p.router.Handler ctx).method ++ "_" ++
            (routePattern p.router ctx.path (p.router.Handler ctx)).1) =
        some ((p.reqDur.children
          (Itoa (p.router.Handler ctx).statusCode,
            (p.router.Handler ctx).method ++ "_" ++
              (routePattern p.router ctx.path (p.router.Handler ctx)).1)).getD [] ++
            [elapsed]) ∧
      (HandlerFunc p elapsed ctx).1.reqDur.count (Itoa (p.router.Handler ctx).statusCode)
          ((p.router.Handler ctx).method ++ "_" ++
            (routePattern p.router ctx.path (p.router.Handler ctx)).1) =
        p.reqDur.count (Itoa (p.router.Handler ctx).statusCode)
          ((p.router.Handler ctx).method ++ "_" ++
            (routePattern p.router ctx.path (p.router.Handler ctx)).1) + 1 ∧
      ∀ lv : String × String,
        lv ≠ (Itoa (p.router.Handler ctx).statusCode,
          (p.router.Handler ctx).method ++ "_" ++
            (routePattern p.router ctx.path (p.router.Handler ctx)).1) →
        (HandlerFunc p elapsed ctx).1.reqDur.children lv = p.reqDur.children lv := by
  have hlv : (labelValues p.router ctx.path (p.router.Handler ctx)).1 =
      (Itoa (p.router.Handler ctx).statusCode,
        (p.router.Handler ctx).method ++ "_" ++
          (routePattern p.router ctx.path (p.router.Handler ctx)).1) := by
    rw [labelValues_fst, endpoint_found _ _ _ hstatus]
  have hch := record_ok p _ _ elapsed haccept
  rw [HandlerFunc_measured p elapsed ctx hpath, hlv]
  refine ⟨by rw [hch, Function.update_same], ?_, ?_⟩
  · simp only [HistogramVec.count, hch, Function.update_same, Option.getD_some,
      List.length_append, List.length_singleton]
  · intro lv hne
    rw [hch, Function.update_noteq hne]

/-- C5 on `GET /items/123` answered with status 200, `GET /items/:id` being
registered: one observation under `200` and `GET_/items/:id`. -/
theorem one_observation_recorded_witness :
    (request "GET" "/items/123").path ≠ (prometheus emptyVec itemsRouter).MetricsPath ∧
      (itemsRouter.Handler (request "GET" "/items/123")).statusCode ≠ 404 ∧
      (HandlerFunc (prometheus emptyVec itemsRouter) 1500000
          (request "GET" "/items/123")).1.reqDur.children ("200", "GET_/items/:id") =
        some [1500000] ∧
      (HandlerFunc (prometheus emptyVec itemsRouter) 1500000
          (request "GET" "/items/123")).1.reqDur.count "200" "GET_/items/:id" = 1 :=
  ⟨by decide, by decide,
    (one_observation_recorded (prometheus emptyVec itemsRouter) 1500000
      (request "GET" "/items/123") (by decide) (by decide) rfl).1,
    (one_observation_recorded (prometheus emptyVec itemsRouter) 1500000
      (request "GET" "/items/123") (by decide) (by decide) rfl).2.1⟩

/-- C6: when `GetMetricWithLabelValues` returns an error for the label values of
the request, the histogram is left as it was, and the status code and the body
of the response are those the handler of the router wrote. -/
theorem record_failure_keeps_response (p : Prometheus) (elapsed : Duration)
    (ctx : RequestCtx) (err : String)
    (herr : p.reqDur.labelError (labelValues p.router ctx.path (p.router.Handler ctx)).1.1
      (labelValues p.router ctx.path (p.router.Handler ctx)).1.2 = some err) :
    (HandlerFunc p elapsed ctx).1.reqDur = p.reqDur ∧
      (HandlerFunc p elapsed ctx).2.statusCode = (p.router.Handler ctx).statusCode ∧
      (HandlerFunc p elapsed ctx).2.body = (p.router.Handler ctx).body := by
  by_cases hpath : ctx.path = p.MetricsPath
  · simp only [HandlerFunc, if_pos hpath, and_self]
  · rw [HandlerFunc_measured p elapsed ctx hpath]
    exact ⟨record_error p _ _ elapsed err herr,
      (labelValues_fields p.router ctx.path _).2.1, (labelValues_fields p.router ctx.path _).2.2⟩

/-- C6 on `GET /items/123` with a histogram that rejects every label pair. -/
theorem record_failure_keeps_response_witness :
    rejectingVec.labelError
        (labelValues itemsRouter "/items/123"
          (itemsRouter.Handler (request "GET" "/items/123"))).1.1
        (labelValues itemsRouter "/items/123"
          (itemsRouter.Handler (request "GET" "/items/123"))).1.2 =
        some "label value is not valid UTF-8" ∧
      ((HandlerFunc (prometheus rejectingVec itemsRouter) 1500000
          (request "GET" "/items/123")).1.reqDur = rejectingVec ∧
        (HandlerFunc (prometheus rejectingVec itemsRouter) 1500000
          (request "GET" "/items/123")).2.statusCode = 200 ∧
        (HandlerFunc (prometheus rejectingVec itemsRouter) 1500000
          (request "GET" "/items/123")).2.body = "item") :=
  ⟨rfl,
    record_failure_keeps_response (prometheus rejectingVec itemsRouter) 1500000
      (request "GET" "/items/123") "label value is not valid UTF-8" rfl⟩

/-- C7: when the catalog has no entry for the method of the request, or an empty
one, or one of which no pattern looks up to the handler of the request path,
the value of `uri` after the loop is the request path, and a response whose
status is not 404 gets the endpoint label made of the method, `_` and that
path. -/
theorem routePattern_fallback (r : Router) (uri : String) (ctx : RequestCtx)
    (h : r.List ctx.method = none ∨ r.List ctx.method = some [] ∨
      ∃ paths, r.List ctx.method = some paths ∧
        ∀ v ∈ paths, (r.Lookup ctx.method v).1 ≠ (r.Lookup ctx.method uri).1) :
    (routePattern r uri ctx).1 = uri ∧
      (ctx.statusCode ≠ 404 →
        (labelValues r uri ctx).1 = (Itoa ctx.statusCode, ctx.method ++ "_" ++ uri)) := by
  have hno : ∀ paths, r.List ctx.method = some paths →
      ∀ v ∈ paths, (r.Lookup ctx.method v).1 ≠ (r.Lookup ctx.method uri).1 := by
    intro paths hlist v hv
    rcases h with h | h | ⟨paths', hlist', hall⟩
    · rw [h] at hlist; cases hlist
    · rw [h] at hlist; cases hlist; cases hv
    · rw [hlist'] at hlist; cases hlist; exact hall v hv
  have hres := routePattern_no_match r uri ctx hno
  refine ⟨hres, fun hstatus => ?_⟩
  rw [labelValues_fst, endpoint_found _ _ _ hstatus, hres]

/-- C7 on `GET /foo` with only `GET /foo/` registered: the redirect is labelled
`GET_/foo`. -/
theorem routePattern_fallback_witness :
    (∃ paths, slashRouter.List (slashRouter.Handler (request "GET" "/foo")).method =
        some paths ∧
      ∀ v ∈ paths,
        (slashRouter.Lookup (slashRouter.Handler (request "GET" "/foo")).method v).1 ≠
          (slashRouter.Lookup (slashRouter.Handler (request "GET" "/foo")).method "/foo").1) ∧
      (routePattern slashRouter "/foo" (slashRouter.Handler (request "GET" "/foo"))).1 =
        "/foo" ∧
      (labelValues slashRouter "/foo" (slashRouter.Handler (request "GET" "/foo"))).1 =
        ("301", "GET" ++ "_" ++ "/foo") :=
  ⟨⟨["/foo/"], rfl, by decide⟩,
    (routePattern_fallback slashRouter "/foo" (slashRouter.Handler (request "GET" "/foo"))
      (Or.inr (Or.inr ⟨["/foo/"], rfl, by decide⟩))).1,
    (routePattern_fallback slashRouter "/foo" (slashRouter.Handler (request "GET" "/foo"))
      (Or.inr (Or.inr ⟨["/foo/"], rfl, by decide⟩))).2 (by decide)⟩

/-- C9: when the catalog entry of the method of the request has a pattern that
looks up to the handler of the request path, the value of `uri` after the loop
is the first such pattern of the entry: every pattern listed before it looks
up to another handler. -/
theorem routePattern_first_match (r : Router) (uri : String) (ctx : RequestCtx)
    (paths : List String) (hlist : r.List ctx.method = some paths)
    (hex : ∃ v ∈ paths, (r.Lookup ctx.method v).1 = (r.Lookup ctx.method uri).1) :
    ∃ pre v post, paths = pre ++ v :: post ∧
      (∀ q ∈ pre, (r.Lookup ctx.method q).1 ≠ (r.Lookup ctx.method uri).1) ∧
      (r.Lookup ctx.method v).1 = (r.Lookup ctx.method uri).1 ∧
      (routePattern r uri ctx).1 = v :=
  routePattern_exists r uri ctx paths hlist hex

/-- C9 on `GET /b/5` with `/a/:id` and `/b/:id` registered in this order with one
handler. -/
theorem routePattern_first_match_witness :
    twinRouter.List (twinRouter.Handler (request "GET" "/b/5")).method =
        some ["/a/:id", "/b/:id"] ∧
      (∃ v ∈ ["/a/:id", "/b/:id"],
        (twinRouter.Lookup (twinRouter.Handler (request "GET" "/b/5")).method v).1 =
          (twinRouter.Lookup (twinRouter.Handler (request "GET" "/b/5")).method "/b/5").1) ∧
      ∃ pre v post, ["/a/:id", "/b/:id"] = pre ++ v :: post ∧
        (∀ q ∈ pre,
          (twinRouter.Lookup (twinRouter.Handler (request "GET" "/b/5")).method q).1 ≠
            (twinRouter.Lookup (twinRouter.Handler (request "GET" "/b/5")).method "/b/5").1) ∧
        (twinRouter.Lookup (twinRouter.Handler (request "GET" "/b/5")).method v).1 =
          (twinRouter.Lookup (twinRouter.Handler (request "GET" "/b/5")).method "/b/5").1 ∧
        (routePattern twinRouter "/b/5" (twinRouter.Handler (request "GET" "/b/5"))).1 = v :=
  ⟨rfl, ⟨"/b/:id", by simp, by decide⟩,
    routePattern_first_match twinRouter "/b/5" (twinRouter.Handler (request "GET" "/b/5"))
      ["/a/:id", "/b/:id"] rfl ⟨"/b/:id", by simp, by decide⟩⟩

/-- C10: the handlers are compared by their printed text, so the nil handler of a
request path equals the nil handler of a pattern. When the lookup of the
request path finds no handler and the status is not 404, the endpoint label
is the method, `_` and the first pattern of the catalog entry whose own lookup
finds no handler, if there is one; and it is the method, `_` and the request
path if every pattern of the entry looks up to some handler. -/
theorem nil_handler_label (r : Router) (uri : String) (ctx : RequestCtx)
    (paths : List String) (hnil : (r.Lookup ctx.method uri).1 = none)
    (hstatus : ctx.statusCode ≠ 404) (hlist : r.List ctx.method = some paths) :
    ((∃ v ∈ paths, (r.Lookup ctx.method v).1 = none) →
        ∃ pre v post, paths = pre ++ v :: post ∧
          (∀ q ∈ pre, (r.Lookup ctx.method q).1 ≠ none) ∧
          (r.Lookup ctx.method v).1 = none ∧
          sprintfV (r.Lookup ctx.method v).1 = sprintfV (r.Lookup ctx.method uri).1 ∧
          (labelValues r uri ctx).1 = (Itoa ctx.statusCode, ctx.method ++ "_" ++ v)) ∧
      ((∀ v ∈ paths, (r.Lookup ctx.method v).1 ≠ none) →
        (labelValues r uri ctx).1 = (Itoa ctx.statusCode, ctx.method ++ "_" ++ uri)) := by
  constructor
  · intro hex
    obtain ⟨pre, v, post, hsplit, hpre, hv, hres⟩ :=
      routePattern_exists r uri ctx paths hlist (by rw [hnil]; exact hex)
    refine ⟨pre, v, post, hsplit, ?_, hnil ▸ hv, by rw [hv], ?_⟩
    · intro q hq; rw [← hnil]; exact hpre q hq
    · rw [labelValues_fst, endpoint_found _ _ _ hstatus, hres]
  · intro hall
    have hres := routePattern_no_match r uri ctx (fun paths' hlist' v hv => by
      rw [hlist] at hlist'; cases hlist'; rw [hnil]; exact hall v hv)
    rw [labelValues_fst, endpoint_found _ _ _ hstatus, hres]

/-- C10 on `GET /Items/5` with `GET /ping` and the numbered items registered: the
redirect to `/items/5` is labelled with the second pattern, whose own lookup
finds no handler. -/
theorem nil_handler_label_witness :
    (regexRouter.Lookup (regexRouter.Handler (request "GET" "/Items/5")).method "/Items/5").1 =
        none ∧
      (regexRouter.Handler (request "GET" "/Items/5")).statusCode ≠ 404 ∧
      regexRouter.List (regexRouter.Handler (request "GET" "/Items/5")).method =
        some ["/ping", "/items/\x7bid:[0-9]+\x7d"] ∧
      (labelValues regexRouter "/Items/5" (regexRouter.Handler (request "GET" "/Items/5"))).1 =
        ("301", "GET_/items/\x7bid:[0-9]+\x7d") ∧
      ∃ pre v post, ["/ping", "/items/\x7bid:[0-9]+\x7d"] = pre ++ v :: post ∧
        (∀ q ∈ pre,
          (regexRouter.Lookup (regexRouter.Handler (request "GET" "/Items/5")).method q).1 ≠
            none) ∧
        (regexRouter.Lookup (regexRouter.Handler (request "GET" "/Items/5")).method v).1 =
          none ∧
        sprintfV (regexRouter.Lookup
            (regexRouter.Handler (request "GET" "/Items/5")).method v).1 =
          sprintfV (regexRouter.Lookup
            (regexRouter.Handler (request "GET" "/Items/5")).method "/Items/5").1 ∧
        (labelValues regexRouter "/Items/5"
            (regexRouter.Handler (request "GET" "/Items/5"))).1 =
          (Itoa (regexRouter.Handler (request "GET" "/Items/5")).statusCode,
            (regexRouter.Handler (request "GET" "/Items/5")).method ++ "_" ++ v) :=
  ⟨by decide, by decide, rfl, by decide,
    (nil_handler_label regexRouter "/Items/5" (regexRouter.Handler (request "GET" "/Items/5"))
      ["/ping", "/items/\x7bid:[0-9]+\x7d"] (by decide) (by decide) rfl).1
      ⟨"/items/\x7bid:[0-9]+\x7d", by simp, by decide⟩⟩

/-- C8 at `SetListenAddress(":9090")`, and at `SetListenAddressWithRouter(":9090", r2)`,
followed by `Custom(r)`: the router of the middleware is the router `r` of the
application again, the route `GET /metrics` is registered on `r`, the listener
on `:9090` serves `r`, and the separate router has no route. -/
theorem custom_serves_application_router :
    (Setup.SetListenAddress Setup.NewPrometheus ":9090" Setup.Example.appProcess).1.router =
        some 2 ∧
      Setup.Example.listenThenCustom.1.router = some 0 ∧
      Setup.Example.listenThenCustom.2.routes 0 = [("GET", "/metrics")] ∧
      Setup.Example.listenThenCustom.2.routes 2 = [] ∧
      Setup.Example.listenThenCustom.2.listeners = [(":9090", some 0)] ∧
      (Setup.SetListenAddressWithRouter Setup.NewPrometheus ":9090" 1
        Setup.Example.appProcess).1.router = some 1 ∧
      Setup.Example.listenWithRouterThenCustom.1.router = some 0 ∧
      Setup.Example.listenWithRouterThenCustom.2.routes 0 = [("GET", "/metrics")] ∧
      Setup.Example.listenWithRouterThenCustom.2.routes 1 = [] ∧
      Setup.Example.listenWithRouterThenCustom.2.listeners = [(":9090", some 0)] := by
  decide

end Fasthttpprom
